import Mathlib

/-!
Verification development for the Tesla ESG sentiment analysis pipeline
(`tesla_esg_analysis.py`, class `TeslaESGSentimentAnalyzer`).

Python strings are embedded as lists of characters (`PyStr`); pandas/NumPy
missing values (`NaN`/`NaT`/`None`) are embedded as `Option`; Python floats
are embedded as rationals (`ℚ`); pandas timestamps are embedded as integer
day numbers (days relative to the civil epoch 1970-01-01, as in
`daysFromCivil`).  Each definition carries a note naming the source
construct it embeds.
-/

namespace TeslaESG

/-- A Python string, embedded as its list of characters. -/
abbrev PyStr := List Char

/-- Python `str.split(sep)` for a one-character separator: splitting the
empty string yields `[""]`, and the result always has one more part than
the number of separator occurrences. -/
def pySplit (sep : Char) : PyStr → List PyStr
  | [] => [[]]
  | c :: cs =>
    let r := pySplit sep cs
    if c = sep then [] :: r
    else (c :: r.headD []) :: r.tail

/-- Python `str.strip()` restricted to whitespace: drop whitespace from both
ends of the string. -/
def pyStrip (s : PyStr) : PyStr :=
  ((s.dropWhile Char.isWhitespace).reverse.dropWhile Char.isWhitespace).reverse

/-- Python's substring test `sub in hay` (contiguous substring of the
character sequence). -/
def pyContains (sub : PyStr) : PyStr → Bool
  | [] => sub.isEmpty
  | c :: cs => sub.isPrefixOf (c :: cs) || pyContains sub cs

/-- Digit-string value: `foldl (a * 10 + digit)`, the value of a run of
decimal digit characters. -/
def digitsToNat (ds : List Char) : ℕ :=
  ds.foldl (fun a c => a * 10 + (c.toNat - 48)) 0

/-- Exponent part of a Python float literal after the `e`/`E`: an optional
sign followed by a nonempty run of digits, consuming the whole rest. -/
def parseExpPart (cs : PyStr) : Option ℤ :=
  let sr : ℤ × PyStr :=
    match cs with
    | '+' :: r => (1, r)
    | '-' :: r => (-1, r)
    | r => (1, r)
  let ds := sr.2.takeWhile Char.isDigit
  let rest := sr.2.dropWhile Char.isDigit
  if ds.isEmpty ∨ ¬ rest.isEmpty then none
  else some (sr.1 * (digitsToNat ds : ℤ))

/-- Unsigned mantissa (with optional fraction and exponent) of a Python
float literal: `digits [. digits] [exp]` or `. digits [exp]`.  The `inf`
and `nan` spellings accepted by Python `float` are outside the scope of
this model (no tone field uses them). -/
def parseMantissaExp (cs : PyStr) : Option ℚ :=
  let ip := cs.takeWhile Char.isDigit
  let r1 := cs.dropWhile Char.isDigit
  match r1 with
  | [] => if ip.isEmpty then none else some (digitsToNat ip : ℚ)
  | '.' :: r2 =>
    let fp := r2.takeWhile Char.isDigit
    let r3 := r2.dropWhile Char.isDigit
    if ip.isEmpty ∧ fp.isEmpty then none
    else
      let base : ℚ := (digitsToNat ip : ℚ) + (digitsToNat fp : ℚ) / (10 : ℚ) ^ fp.length
      match r3 with
      | [] => some base
      | e :: r4 =>
        if e = 'e' ∨ e = 'E' then (parseExpPart r4).map (fun k => base * (10 : ℚ) ^ k)
        else none
  | e :: r4 =>
    if (e = 'e' ∨ e = 'E') ∧ ¬ ip.isEmpty then
      (parseExpPart r4).map (fun k => (digitsToNat ip : ℚ) * (10 : ℚ) ^ k)
    else none

/-- Python `float(s)` on a string argument: strip whitespace, optional
sign, then the numeric literal grammar; `none` models `ValueError`. -/
def pyFloat? (s : PyStr) : Option ℚ :=
  match pyStrip s with
  | '+' :: r => parseMantissaExp r
  | '-' :: r => (parseMantissaExp r).map (fun q => -q)
  | r => parseMantissaExp r

/-- Argument of `TeslaESGSentimentAnalyzer._extract_sentiment`: the
`V2Tone` cell is a missing value, an already-numeric value, or a string. -/
inductive ToneInput
  | null
  | num (v : ℚ)
  | str (s : PyStr)

/-- `TeslaESGSentimentAnalyzer._extract_sentiment` (lines 113-132):
`pd.isna` input gives `NaN`; an `int`/`float` input is passed through as a
float; otherwise the string is split on `,` and `float(parts[0])` is
returned when `parts[0]` is nonempty and numeric, `NaN` otherwise (the
`ValueError` of `float` is caught; `parts[0]` never raises `IndexError`
because `split` returns at least one part).  `none` embeds `NaN`. -/
def extractSentiment : ToneInput → Option ℚ
  | .null => none
  | .num v => some v
  | .str s =>
    let parts := pySplit ',' s
    let p := parts.headD []
    if p.isEmpty then none else pyFloat? p

/-- `TeslaESGSentimentAnalyzer._extract_themes` (lines 134-146): a missing
value gives `[]`; otherwise split on `;`, strip each piece, and keep the
nonempty stripped pieces in order. -/
def extractThemes : Option PyStr → List PyStr
  | none => []
  | some s => ((pySplit ';' s).map pyStrip).filter (fun t => ¬ t.isEmpty)

/-- The six ESG categories, in the declaration order of
`esg_categories_map` in `_categorize_esg_themes`. -/
inductive ESGCategory
  | Environmental
  | Social
  | Governance
  | Economic
  | Technology
  | Political
deriving DecidableEq, Repr

/-- Iteration order of `esg_categories_map` (Python dict insertion order). -/
def categoryOrder : List ESGCategory :=
  [.Environmental, .Social, .Governance, .Economic, .Technology, .Political]

/-- The keyword lists of `esg_categories_map` (lines 158-172), verbatim. -/
def esgKeywords : ESGCategory → List PyStr
  | .Environmental =>
      (["WB_1331_HEALTH_TECHNOLOGIES", "UNGP_FORESTS_RIVERS_OCEANS", "NATURAL_DISASTER",
        "TAX_ETHNICITY_CHINESE", "TAX_WORLDLANGUAGES_CHINESE"] : List String).map String.data
  | .Social =>
      (["WB_615_GENDER", "WB_924_VOICE_AND_AGENCY", "WB_621_HEALTH_NUTRITION_AND_POPULATION",
        "GENERAL_HEALTH", "MEDICAL", "TAX_DISEASE", "WB_926_POLITICAL_PARTICIPATION"]
        : List String).map String.data
  | .Governance =>
      (["WB_831_GOVERNANCE", "WB_832_ANTI_CORRUPTION", "WB_2019_ANTI_CORRUPTION_LEGISLATION",
        "WB_2020_BRIBERY_FRAUD_AND_COLLUSION", "CORRUPTION", "LEGISLATION", "EPU_POLICY",
        "WB_845_LEGAL_AND_REGULATORY_FRAMEWORK", "WB_696_PUBLIC_SECTOR_MANAGEMENT",
        "WB_969_CAPITAL_MARKETS_LAW_AND_REGULATION", "TAX_FNCACT_EXECUTIVES"]
        : List String).map String.data
  | .Economic =>
      (["ECON_STOCKMARKET", "TAX_ECON_PRICE", "WB_698_TRADE"] : List String).map String.data
  | .Technology =>
      (["WB_678_DIGITAL_GOVERNMENT", "WB_694_BROADCAST_AND_MEDIA",
        "WB_133_INFORMATION_AND_COMMUNICATION_TECHNOLOGIES", "SOC_EMERGINGTECH",
        "WB_652_ICT_APPLICATIONS", "WB_662_SOCIAL_MEDIA"] : List String).map String.data
  | .Political =>
      (["USPEC_POLITICS_GENERAL1", "TAX_POLITICAL_PARTY", "ELECTION", "TAX_FNCACT_PRESIDENT"]
        : List String).map String.data

/-- `any(keyword in theme for keyword in keywords)` for one category. -/
def themeMatches (c : ESGCategory) (theme : PyStr) : Bool :=
  (esgKeywords c).any (fun k => pyContains k theme)

/-- The inner loop of `_categorize_esg_themes` with its `break`: the first
category in declaration order whose keyword list has a substring match
against the token, if any. -/
def firstMatch (theme : PyStr) : Option ESGCategory :=
  categoryOrder.find? (fun c => themeMatches c theme)

/-- One iteration of the outer loop of `_categorize_esg_themes`:
increment the counter of the token's first matching category, if any. -/
def categorizeStep (acc : ESGCategory → ℕ) (t : PyStr) : ESGCategory → ℕ :=
  match firstMatch t with
  | some c => fun c2 => if c2 = c then acc c2 + 1 else acc c2
  | none => acc

/-- `TeslaESGSentimentAnalyzer._categorize_esg_themes` (lines 148-181):
start all six counters at 0; for each token increment the counter of the
first matching category (the `break` stops the scan), leaving unmatched
tokens uncounted. -/
def categorize (themes : List PyStr) : ESGCategory → ℕ :=
  themes.foldl categorizeStep (fun _ => 0)

/-- Sum of the six category counters, in map order. -/
def sumCounts (m : ESGCategory → ℕ) : ℕ :=
  (categoryOrder.map m).sum

/-- The four labels of the `sentiment_category` column
(`clean_and_preprocess_data`, line 228). -/
inductive SentimentCategory
  | veryNegative
  | negative
  | positive
  | veryPositive
deriving DecidableEq, Repr

/-- The `sentiment_category` derivation (`clean_and_preprocess_data`,
lines 226-229): `pd.cut` with `bins=[-inf, -2, 0, 2, inf]` and
`right=True`, i.e. the buckets are the left-open right-closed intervals
`(-inf, -2]`, `(-2, 0]`, `(0, 2]`, `(2, inf)` labelled Very Negative,
Negative, Positive, Very Positive.  The score is never missing here: rows
with a missing score were dropped on line 218. -/
def sentimentCategory (score : ℚ) : SentimentCategory :=
  if score ≤ -2 then .veryNegative
  else if score ≤ 0 then .negative
  else if score ≤ 2 then .positive
  else .veryPositive

/-- Gregorian leap-year test. -/
def isLeapYear (y : ℤ) : Bool :=
  (y % 4 == 0 && y % 100 != 0) || y % 400 == 0

/-- Length of a month in the Gregorian calendar. -/
def daysInMonth (y m : ℤ) : ℤ :=
  if m = 2 then (if isLeapYear y then 29 else 28)
  else if m = 4 ∨ m = 6 ∨ m = 9 ∨ m = 11 then 30
  else 31

/-- Day number of a civil date, counted from 1970-01-01 (the epoch of a
pandas timestamp); the standard days-from-civil computation.  All
divisions act on non-negative operands for the years in scope. -/
def daysFromCivil (y m d : ℤ) : ℤ :=
  let y2 := if m ≤ 2 then y - 1 else y
  let era := (if 0 ≤ y2 then y2 else y2 - 399) / 400
  let yoe := y2 - era * 400
  let mp := (m + 9) % 12
  let doy := (153 * mp + 2) / 5 + d - 1
  let doe := yoe * 365 + yoe / 4 - yoe / 100 + doy
  era * 146097 + doe - 719468

/-- Earliest whole day representable by a nanosecond pandas timestamp
(`pd.Timestamp.min` is 1677-09-21 00:12, so 1677-09-22 is the first whole
day). -/
def tsMinDay : ℤ := daysFromCivil 1677 9 22

/-- Latest whole day representable by a nanosecond pandas timestamp
(`pd.Timestamp.max` is 2262-04-11 23:47). -/
def tsMaxDay : ℤ := daysFromCivil 2262 4 11

/-- One row of `pd.to_datetime(..., format='%Y%m%d', errors='coerce')` on
an `int64` value (line 200): the decimal form of the value must be exactly
8 digits (`%Y%m%d` consumes 4+2+2 digit characters and the whole string),
split as year, month, day; an invalid month or day, or a date outside the
pandas timestamp range, coerces to `NaT` (embedded as `none`). -/
def parseYYYYMMDD (v : ℤ) : Option ℤ :=
  if 10000000 ≤ v ∧ v ≤ 99999999 then
    let y := v / 10000
    let m := (v / 100) % 100
    let d := v % 100
    if 1 ≤ m ∧ m ≤ 12 ∧ 1 ≤ d ∧ d ≤ daysInMonth y m then
      let dn := daysFromCivil y m d
      if tsMinDay ≤ dn ∧ dn ≤ tsMaxDay then some dn else none
    else none
  else none

/-- Python `len(str(v)) == 8` for an integer `v`: either `v` has 8 decimal
digits (`10^7 ≤ v < 10^8`), or `v` is negative and `-v` has 7 digits, the
minus sign supplying the eighth character. -/
def pyIntStrLen8 (v : ℤ) : Bool :=
  decide ((10000000 ≤ v ∧ v < 100000000) ∨ (-9999999 ≤ v ∧ v ≤ -1000000))

/-- The fixed epoch of the synthetic-date fallback:
`pd.to_datetime('2024-07-01')` (lines 203 and 208). -/
def epochDay : ℤ := daysFromCivil 2024 7 1

/-- The date-parsing branch of `clean_and_preprocess_data` (lines
198-210).  The `if` takes the `%Y%m%d` path exactly when the `SQLDATE`
column exists, its dtype is `int64`, and the first value prints as 8
characters; otherwise (including the `except` path: `iloc[0]` on an empty
frame raises, and the handler also assigns synthetic dates) every row
receives the synthetic date `2024-07-01 + position`.  An `int64` column
holds no missing values, so `values` is a plain integer list. -/
def parseDateColumn (hasCol isInt64 : Bool) (values : List ℤ) : List (Option ℤ) :=
  if hasCol && isInt64 && (match values.head? with
      | some v => pyIntStrLen8 v
      | none => false) then
    values.map parseYYYYMMDD
  else
    (List.range values.length).map (fun i => some (epochDay + (i : ℤ)))

/-- One row of `df_clean` after `clean_and_preprocess_data`, restricted to
the fields the aggregation and summary stages read: the parsed date (a
day number), the sentiment score, and the raw `V2Themes` cell. -/
structure CleanedRecord where
  date : ℤ
  sentiment_score : ℚ
  v2themes : Option PyStr
deriving DecidableEq, Repr

/-- `pandas.Series.mean` over the embedded values (sum over length;
Lean's division gives `0/0 = 0` for the empty list, a case the code
guards separately). -/
def mean (xs : List ℚ) : ℚ := xs.sum / (xs.length : ℚ)

/-- `self.df_clean['date'].max()` (line 639); only used on non-empty
data. -/
def maxDate : List CleanedRecord → ℤ
  | [] => 0
  | r :: rs => rs.foldl (fun a x => max a x.date) r.date

/-- `avg_sentiment = self.df_clean['sentiment_score'].mean()` (line 634). -/
def avgSentiment (rows : List CleanedRecord) : ℚ :=
  mean (rows.map (fun r => r.sentiment_score))

/-- `recent_30d = self.df_clean[self.df_clean['date'] >= max_date -
timedelta(days=30)]` (line 649). -/
def recent30 (rows : List CleanedRecord) : List CleanedRecord :=
  rows.filter (fun r => maxDate rows - 30 ≤ r.date)

/-- `recent_sentiment = recent_30d['sentiment_score'].mean() if not
recent_30d.empty else avg_sentiment` (line 650). -/
def recentSentiment (rows : List CleanedRecord) : ℚ :=
  if (recent30 rows).isEmpty then avgSentiment rows
  else avgSentiment (recent30 rows)

/-- `trend_direction = "improving" if recent_sentiment > avg_sentiment
else "declining"` (line 652). -/
def trendDirection (rows : List CleanedRecord) : String :=
  if recentSentiment rows > avgSentiment rows then "improving" else "declining"

/-- `trend_magnitude = abs(recent_sentiment - avg_sentiment)` (line 653). -/
def trendMagnitude (rows : List CleanedRecord) : ℚ :=
  |recentSentiment rows - avgSentiment rows|

/-- The `category_totals` accumulation of `generate_executive_summary`
(lines 668-673): starting from all-zero totals, add the categorized
counts of each row's extracted themes. -/
def summaryCategoryTotals (rows : List CleanedRecord) : ESGCategory → ℕ :=
  rows.foldl
    (fun acc r => fun c => acc c + categorize (extractThemes r.v2themes) c)
    (fun _ => 0)

/-- The `category_totals` accumulation of `perform_eda` (lines 310-332):
first build `theme_categories_list` (one categorized-count map per row),
then add the maps into all-zero totals. -/
def edaCategoryTotals (rows : List CleanedRecord) : ESGCategory → ℕ :=
  (rows.map (fun r => categorize (extractThemes r.v2themes))).foldl
    (fun acc m => fun c => acc c + m c)
    (fun _ => 0)

/-- The recommendation blocks of `generate_executive_summary` (lines
679-709), identified by their category: four fixed `if` statements, in
source order Governance, Economic, Social, Environmental, each guarded by
`dict(sorted_categories)[category] > 0` (the membership test
`category in dict(sorted_categories)` is always true, and the totals in
`dict(sorted_categories)` equal `category_totals`).  Technology and
Political have no block in the source. -/
def emittedRecommendations (rows : List CleanedRecord) : List ESGCategory :=
  let t := summaryCategoryTotals rows
  (if 0 < t ESGCategory.Governance then [ESGCategory.Governance] else []) ++
  (if 0 < t ESGCategory.Economic then [ESGCategory.Economic] else []) ++
  (if 0 < t ESGCategory.Social then [ESGCategory.Social] else []) ++
  (if 0 < t ESGCategory.Environmental then [ESGCategory.Environmental] else [])

/-- The statistics `generate_executive_summary` logs for non-empty data. -/
structure SummaryReport where
  totalArticles : ℕ
  avgSentiment : ℚ
  negativePct : ℚ
  positivePct : ℚ
  recentSentiment : ℚ
  trendDirection : String
  trendMagnitude : ℚ
  recommendations : List ESGCategory
deriving DecidableEq, Repr

/-- Outcome of `generate_executive_summary`: the early-return "no data"
warning (lines 629-631), or the full report. -/
inductive SummaryResult
  | noData
  | report (r : SummaryReport)
deriving DecidableEq, Repr

/-- `generate_executive_summary` (lines 620-709): the `df_clean.empty`
guard runs first and returns the "no data" signal before any statistic;
otherwise every logged statistic is computed. -/
def generateExecutiveSummary (rows : List CleanedRecord) : SummaryResult :=
  if rows.isEmpty then .noData
  else
    .report
      { totalArticles := rows.length
        avgSentiment := avgSentiment rows
        negativePct :=
          ((rows.filter (fun r => r.sentiment_score < 0)).length : ℚ) / (rows.length : ℚ) * 100
        positivePct :=
          ((rows.filter (fun r => 0 < r.sentiment_score)).length : ℚ) / (rows.length : ℚ) * 100
        recentSentiment := recentSentiment rows
        trendDirection := trendDirection rows
        trendMagnitude := trendMagnitude rows
        recommendations := emittedRecommendations rows }

/-- `Series.rolling(window=w, min_periods=1).mean()` (lines 507-508):
entry `i` is the mean of the trailing window `xs[i+1-w .. i]`, clamped at
the start of the series, so every entry is defined and the first entry
averages the one-element window. -/
def rollingMean (w : ℕ) (xs : List ℚ) : List ℚ :=
  (List.range xs.length).map (fun i => mean ((xs.take (i + 1)).drop (i + 1 - w)))

/-- Insertion step of the date sort. -/
def insertByDate (r : CleanedRecord) : List CleanedRecord → List CleanedRecord
  | [] => [r]
  | x :: xs => if r.date < x.date then r :: x :: xs else x :: insertByDate r xs

/-- `export_df.sort_values('date')` (line 506): the rows in ascending date
order, embedded as an insertion sort. -/
def sortByDate : List CleanedRecord → List CleanedRecord
  | [] => []
  | r :: rs => insertByDate r (sortByDate rs)

/-- The `sentiment_7d_avg` column of `export_data_for_bi` (lines
506-507): the rolling 7-row average of the date-sorted scores. -/
def rolling7Column (rows : List CleanedRecord) : List ℚ :=
  rollingMean 7 ((sortByDate rows).map (fun r => r.sentiment_score))

/-- The `sentiment_30d_avg` column of `export_data_for_bi` (lines 506 and
508): the rolling 30-row average of the date-sorted scores. -/
def rolling30Column (rows : List CleanedRecord) : List ℚ :=
  rollingMean 30 ((sortByDate rows).map (fun r => r.sentiment_score))

/-! Helper lemmas shared by the claim theorems. -/

/-- `str.split` always returns at least one part. -/
theorem pySplit_ne_nil (sep : Char) (s : PyStr) : pySplit sep s ≠ [] := by
  cases s with
  | nil => simp [pySplit]
  | cons c cs =>
    simp only [pySplit]
    by_cases h : c = sep <;> simp [h]

/-- Splitting a separator-free string yields that string as the single part. -/
theorem pySplit_no_sep (sep : Char) (p : PyStr) (h : sep ∉ p) :
    pySplit sep p = [p] := by
  induction p with
  | nil => rfl
  | cons c cs ih =>
    have hc : c ≠ sep := fun hcs => h (hcs ▸ List.mem_cons_self c cs)
    have hcs : sep ∉ cs := fun hm => h (List.mem_cons_of_mem c hm)
    simp [pySplit, hc, ih hcs]

/-- The first part of a split is the text before the first separator. -/
theorem pySplit_headD_append (sep : Char) (p rest : PyStr) (h : sep ∉ p) :
    (pySplit sep (p ++ sep :: rest)).headD [] = p := by
  induction p with
  | nil => simp [pySplit]
  | cons c cs ih =>
    have hc : c ≠ sep := fun hcs => h (hcs ▸ List.mem_cons_self c cs)
    have hcs : sep ∉ cs := fun hm => h (List.mem_cons_of_mem c hm)
    have hne := pySplit_ne_nil sep (cs ++ sep :: rest)
    cases hsp : pySplit sep (cs ++ sep :: rest) with
    | nil => exact absurd hsp hne
    | cons a as =>
      have : a = cs := by
        have := ih hcs
        rw [hsp] at this
        simpa using this
      simp [pySplit, hc, hsp, this]

/-- One categorization step splits into the old counters plus the step on
zero counters. -/
theorem categorizeStep_add (acc : ESGCategory → ℕ) (t : PyStr) (c : ESGCategory) :
    categorizeStep acc t c = acc c + categorizeStep (fun _ => 0) t c := by
  unfold categorizeStep
  cases firstMatch t with
  | none => simp
  | some c2 =>
    by_cases h : c = c2 <;> simp [h]

/-- Folding the categorization step over tokens adds the fold-from-zero to
the initial counters. -/
theorem foldl_categorizeStep (ts : List PyStr) :
    ∀ (acc : ESGCategory → ℕ) (c : ESGCategory),
      ts.foldl categorizeStep acc c = acc c + categorize ts c := by
  induction ts with
  | nil => intro acc c; simp [categorize]
  | cons t ts ih =>
    intro acc c
    have h1 : categorize (t :: ts) c =
        categorizeStep (fun _ => 0) t c + categorize ts c := by
      show (ts.foldl categorizeStep (categorizeStep (fun _ => 0) t)) c = _
      rw [ih (categorizeStep (fun _ => 0) t) c]
    show (ts.foldl categorizeStep (categorizeStep acc t)) c = _
    rw [ih (categorizeStep acc t) c, categorizeStep_add, h1]
    omega

/-- Unfolding one token of `categorize`. -/
theorem categorize_cons (t : PyStr) (ts : List PyStr) (c : ESGCategory) :
    categorize (t :: ts) c = categorizeStep (fun _ => 0) t c + categorize ts c := by
  show (ts.foldl categorizeStep (categorizeStep (fun _ => 0) t)) c = _
  rw [foldl_categorizeStep ts (categorizeStep (fun _ => 0) t) c]

/-- Pointwise sums of counters distribute over `sumCounts`. -/
theorem sumCounts_add (m1 m2 : ESGCategory → ℕ) :
    sumCounts (fun c => m1 c + m2 c) = sumCounts m1 + sumCounts m2 := by
  simp [sumCounts, categoryOrder]
  omega

/-- A single categorization step counts at most one token. -/
theorem sumCounts_categorizeStep_le (t : PyStr) :
    sumCounts (categorizeStep (fun _ => 0) t) ≤ 1 := by
  unfold categorizeStep
  cases firstMatch t with
  | none => simp [sumCounts, categoryOrder]
  | some c => cases c <;> simp [sumCounts, categoryOrder]

/-- The initial value bounds a fold of `max` over record dates. -/
theorem le_foldl_max_date (rs : List CleanedRecord) :
    ∀ a : ℤ, a ≤ rs.foldl (fun a x => max a x.date) a := by
  induction rs with
  | nil => intro a; simp
  | cons x rs ih =>
    intro a
    calc a ≤ max a x.date := le_max_left _ _
    _ ≤ rs.foldl (fun a x => max a x.date) (max a x.date) := ih _

/-- Every member's date bounds a fold of `max` over record dates. -/
theorem mem_le_foldl_max_date (rs : List CleanedRecord) :
    ∀ (a : ℤ) (x : CleanedRecord), x ∈ rs →
      x.date ≤ rs.foldl (fun a x => max a x.date) a := by
  induction rs with
  | nil => intro a x hx; simp at hx
  | cons y rs ih =>
    intro a x hx
    rcases List.mem_cons.mp hx with h | h
    · subst h
      calc x.date ≤ max a x.date := le_max_right _ _
      _ ≤ rs.foldl (fun a x => max a x.date) (max a x.date) := le_foldl_max_date rs _
    · exact ih (max a y.date) x h

/-- A fold of `max` over record dates is the initial value or a member date. -/
theorem foldl_max_date_mem (rs : List CleanedRecord) :
    ∀ a : ℤ, rs.foldl (fun a x => max a x.date) a = a ∨
      ∃ x ∈ rs, rs.foldl (fun a x => max a x.date) a = x.date := by
  induction rs with
  | nil => intro a; left; rfl
  | cons y rs ih =>
    intro a
    rcases ih (max a y.date) with h | ⟨x, hx, hfx⟩
    · rcases max_choice a y.date with hm | hm
      · left; rw [List.foldl_cons, h, hm]
      · right
        exact ⟨y, List.mem_cons_self y rs, by rw [List.foldl_cons, h, hm]⟩
    · right
      exact ⟨x, List.mem_cons_of_mem y hx, by rw [List.foldl_cons]; exact hfx⟩

/-- Every record's date is at most the maximum date. -/
theorem date_le_maxDate (rows : List CleanedRecord) (r : CleanedRecord)
    (hr : r ∈ rows) : r.date ≤ maxDate rows := by
  cases rows with
  | nil => simp at hr
  | cons y rs =>
    rcases List.mem_cons.mp hr with h | h
    · subst h; exact le_foldl_max_date rs r.date
    · exact mem_le_foldl_max_date rs y.date r h

/-- On non-empty data some record attains the maximum date. -/
theorem maxDate_mem (rows : List CleanedRecord) (h : rows ≠ []) :
    ∃ r ∈ rows, r.date = maxDate rows := by
  cases rows with
  | nil => exact absurd rfl h
  | cons y rs =>
    rcases foldl_max_date_mem rs y.date with hf | ⟨x, hx, hfx⟩
    · exact ⟨y, List.mem_cons_self y rs, hf.symm⟩
    · exact ⟨x, List.mem_cons_of_mem y hx, hfx.symm⟩

/-- On non-empty data the trailing-30-day subset is non-empty: the record
at the maximum date satisfies the window condition. -/
theorem recent30_ne_nil (rows : List CleanedRecord) (h : rows ≠ []) :
    recent30 rows ≠ [] := by
  obtain ⟨r, hr, hd⟩ := maxDate_mem rows h
  have hmem : r ∈ recent30 rows := by
    unfold recent30
    rw [List.mem_filter]
    refine ⟨hr, ?_⟩
    rw [decide_eq_true_eq, hd]
    omega
  exact List.ne_nil_of_mem hmem

/-- On non-empty data the fallback of line 650 is not taken: the recent
sentiment is the mean over the trailing-30-day subset. -/
theorem recentSentiment_eq (rows : List CleanedRecord) (h : rows ≠ []) :
    recentSentiment rows = avgSentiment (recent30 rows) := by
  unfold recentSentiment
  rw [if_neg]
  simp [List.isEmpty_iff, recent30_ne_nil rows h]

/-- Inserting a record grows the list by one. -/
theorem length_insertByDate (r : CleanedRecord) (l : List CleanedRecord) :
    (insertByDate r l).length = l.length + 1 := by
  induction l with
  | nil => rfl
  | cons x xs ih =>
    unfold insertByDate
    by_cases h : r.date < x.date <;> simp [h, ih]

/-- Sorting preserves length. -/
theorem length_sortByDate (rows : List CleanedRecord) :
    (sortByDate rows).length = rows.length := by
  induction rows with
  | nil => rfl
  | cons r rs ih => simp [sortByDate, length_insertByDate, ih]

/-- The rolling-average column has one entry per input row. -/
theorem rollingMean_length (w : ℕ) (xs : List ℚ) :
    (rollingMean w xs).length = xs.length := by
  simp [rollingMean]

/-- With `min_periods=1` and a positive window, the first rolling entry is
the first value itself. -/
theorem rollingMean_head (w : ℕ) (hw : 1 ≤ w) (x : ℚ) (xs : List ℚ) :
    (rollingMean w (x :: xs)).head? = some x := by
  unfold rollingMean
  rw [List.length_cons, List.range_succ_eq_map]
  simp only [List.map_cons, List.head?_cons]
  have h1 : 1 - w = 0 := by omega
  simp [h1, mean]

/-! Claim theorems. -/

/-- C1, counterexample: `pd.cut` with `right=True` makes the lowest bucket
the interval closed above at −2, so a sentiment score of exactly −2 is
classified Very Negative, not Negative as the claim states. -/
theorem claim1_counterexample :
    sentimentCategory (-2) = SentimentCategory.veryNegative ∧
    sentimentCategory (-2) ≠ SentimentCategory.negative := by
  have h : sentimentCategory (-2) = SentimentCategory.veryNegative := by
    norm_num [sentimentCategory]
  exact ⟨h, by rw [h]; decide⟩

/-- C1, amended: for every cleaned record the sentiment_category derived
from sentiment_score follows the thresholds score ≤ −2 → Very Negative,
−2 < score ≤ 0 → Negative, 0 < score ≤ 2 → Positive, score > 2 → Very
Positive; in particular a score of exactly −2 is classified Very Negative
and a score of exactly 2 is classified Positive. -/
theorem claim1_amended (rows : List CleanedRecord) (r : CleanedRecord)
    (_hr : r ∈ rows) :
    (r.sentiment_score ≤ -2 →
      sentimentCategory r.sentiment_score = SentimentCategory.veryNegative) ∧
    (-2 < r.sentiment_score → r.sentiment_score ≤ 0 →
      sentimentCategory r.sentiment_score = SentimentCategory.negative) ∧
    (0 < r.sentiment_score → r.sentiment_score ≤ 2 →
      sentimentCategory r.sentiment_score = SentimentCategory.positive) ∧
    (2 < r.sentiment_score →
      sentimentCategory r.sentiment_score = SentimentCategory.veryPositive) := by
  unfold sentimentCategory
  refine ⟨?_, ?_, ?_, ?_⟩ <;> intros <;> split_ifs <;> first | rfl | linarith

/-- C1, witness: the amended theorem applied to the singleton cleaned
record with score exactly 2, classified Positive. -/
theorem claim1_witness :
    sentimentCategory ((⟨0, 2, none⟩ : CleanedRecord).sentiment_score) =
      SentimentCategory.positive := by
  have h := claim1_amended [⟨0, 2, none⟩] ⟨0, 2, none⟩ (List.mem_singleton_self _)
  exact h.2.2.1 (by norm_num) (by norm_num)

/-- Concrete cleaned rows whose category totals are Economic = 2,
Governance = 1, Political = 1, all other categories 0. -/
def c2Rows : List CleanedRecord :=
  [⟨0, 1, some ("ECON_STOCKMARKET;WB_698_TRADE".data)⟩,
   ⟨1, 2, some ("LEGISLATION".data)⟩,
   ⟨2, 3, some ("ELECTION".data)⟩]

/-- C2, counterexample: on `c2Rows` the Political total is positive yet no
Political block is emitted, and the emitted blocks run Governance before
Economic although Economic's total is strictly larger, falsifying both the
claimed every-positive-category emission and the claimed descending
order. -/
theorem claim2_counterexample :
    0 < summaryCategoryTotals c2Rows ESGCategory.Political ∧
    ESGCategory.Political ∉ emittedRecommendations c2Rows ∧
    summaryCategoryTotals c2Rows ESGCategory.Governance <
      summaryCategoryTotals c2Rows ESGCategory.Economic ∧
    emittedRecommendations c2Rows =
      [ESGCategory.Governance, ESGCategory.Economic] := by
  refine ⟨by decide, by decide, by decide, by decide⟩

/-- C2, amended: the executive summary has fixed recommendation blocks
only for Governance, Economic, Social and Environmental; a block is
emitted exactly when its category's total over all cleaned rows is
positive, always in the fixed source order Governance, Economic, Social,
Environmental, regardless of the totals; Technology and Political never
emit a block. -/
theorem claim2_amended (rows : List CleanedRecord) :
    emittedRecommendations rows =
      [ESGCategory.Governance, ESGCategory.Economic, ESGCategory.Social,
        ESGCategory.Environmental].filter
        (fun c => 0 < summaryCategoryTotals rows c) := by
  unfold emittedRecommendations
  by_cases hG : 0 < summaryCategoryTotals rows ESGCategory.Governance <;>
  by_cases hE : 0 < summaryCategoryTotals rows ESGCategory.Economic <;>
  by_cases hS : 0 < summaryCategoryTotals rows ESGCategory.Social <;>
  by_cases hV : 0 < summaryCategoryTotals rows ESGCategory.Environmental <;>
  simp [List.filter_cons, hG, hE, hS, hV]

/-- C3: the per-row sentiment extraction never raises (it is a total
function into an option): a missing input yields Missing, an
already-numeric input is returned directly, and a string input is split
on `,`, yielding Missing exactly when the first field is empty or fails
float parsing and otherwise the first field's float value, independent of
the remaining fields. -/
theorem claim3_extractSentiment :
    extractSentiment .null = none ∧
    (∀ v : ℚ, extractSentiment (.num v) = some v) ∧
    (∀ p rest : PyStr, ',' ∉ p →
      extractSentiment (.str (p ++ ',' :: rest)) = extractSentiment (.str p)) ∧
    (∀ p : PyStr, ',' ∉ p →
      extractSentiment (.str p) = if p.isEmpty then none else pyFloat? p) ∧
    extractSentiment (.str ("".data)) = none ∧
    extractSentiment (.str ("abc,1,2,3,4,5".data)) = none := by
  refine ⟨rfl, fun v => rfl, ?_, ?_, by decide, by decide⟩
  · intro p rest h
    have h1 : (pySplit ',' (p ++ ',' :: rest)).headD [] = p :=
      pySplit_headD_append ',' p rest h
    have h2 : (pySplit ',' p).headD [] = p := by
      rw [pySplit_no_sep ',' p h]; rfl
    simp only [extractSentiment, h1, h2]
  · intro p h
    have h2 : (pySplit ',' p).headD [] = p := by
      rw [pySplit_no_sep ',' p h]; rfl
    simp only [extractSentiment, h2]

/-- C3, witness: the field-independence conjunct applied to the concrete
first field `1.5` followed by the fields `2` and `3`. -/
theorem claim3_witness :
    (',' ∉ ("1.5".data)) ∧
    extractSentiment (.str (("1.5".data) ++ ',' :: ("2,3".data))) =
      extractSentiment (.str ("1.5".data)) := by
  refine ⟨by decide, ?_⟩
  exact claim3_extractSentiment.2.2.1 ("1.5".data) ("2,3".data) (by decide)

/-- C4: each theme token increments at most one category (so the six
counters sum to at most the token count); the incremented category is the
first in declared order with a keyword-substring match and matches the
token; unmatched tokens change nothing; and `LEGISLATION` counts once for
Governance and nothing else. -/
theorem claim4_categorize (themes : List PyStr) (t : PyStr) (ts : List PyStr)
    (c : ESGCategory) :
    sumCounts (categorize themes) ≤ themes.length ∧
    (firstMatch t = some c → themeMatches c t = true) ∧
    (firstMatch t = none → ∀ c2, categorize (t :: ts) c2 = categorize ts c2) ∧
    (firstMatch t = some c →
      categorize (t :: ts) c = categorize ts c + 1 ∧
      ∀ c2, c2 ≠ c → categorize (t :: ts) c2 = categorize ts c2) ∧
    (∀ c2, categorize [("LEGISLATION".data)] c2 =
      if c2 = ESGCategory.Governance then 1 else 0) := by
  refine ⟨?_, ?_, ?_, ?_, ?_⟩
  · induction themes with
    | nil => simp [categorize, sumCounts, categoryOrder]
    | cons t2 ts2 ih =>
      have hfun : categorize (t2 :: ts2) =
          fun c2 => categorizeStep (fun _ => 0) t2 c2 + categorize ts2 c2 :=
        funext (categorize_cons t2 ts2)
      rw [hfun, sumCounts_add]
      have h1 := sumCounts_categorizeStep_le t2
      simp only [List.length_cons]
      omega
  · intro h
    unfold firstMatch at h
    have h2 := List.find?_some h
    simpa using h2
  · intro h c2
    rw [categorize_cons]
    simp [categorizeStep, h]
  · intro h
    constructor
    · rw [categorize_cons]
      simp [categorizeStep, h]
      omega
    · intro c2 hne
      rw [categorize_cons]
      simp [categorizeStep, h, hne]
  · intro c2
    cases c2 <;> decide

/-- C4, witness: the first-match conjuncts applied to the concrete token
`LEGISLATION`, whose first matching category is Governance. -/
theorem claim4_witness :
    categorize [("LEGISLATION".data)] ESGCategory.Governance =
      categorize [] ESGCategory.Governance + 1 ∧
    themeMatches ESGCategory.Governance ("LEGISLATION".data) = true := by
  have h := claim4_categorize [] ("LEGISLATION".data) [] ESGCategory.Governance
  have hf : firstMatch ("LEGISLATION".data) = some ESGCategory.Governance := by decide
  exact ⟨(h.2.2.2.1 hf).1, h.2.1 hf⟩

/-- C5: the summary generator returns the "no data" signal exactly when
the cleaned dataset is empty; the emptiness guard is the first statement,
so the empty case reaches no statistic (the report constructor, which
carries every computed statistic, is only built in the other branch). -/
theorem claim5_empty_summary (rows : List CleanedRecord) :
    generateExecutiveSummary rows = SummaryResult.noData ↔ rows = [] := by
  cases rows with
  | nil => simp [generateExecutiveSummary]
  | cons r rs => simp [generateExecutiveSummary]

/-- C6: for every non-empty cleaned dataset the trend direction is
"improving" exactly when the mean over the trailing-30-day subset
(relative to the maximum date) strictly exceeds the all-time mean, and
"declining" otherwise (equality included), and the trend magnitude is the
absolute difference of the two means. -/
theorem claim6_trend (rows : List CleanedRecord) (h : rows ≠ []) :
    (trendDirection rows = "improving" ↔
      avgSentiment (recent30 rows) > avgSentiment rows) ∧
    (trendDirection rows = "declining" ↔
      ¬ avgSentiment (recent30 rows) > avgSentiment rows) ∧
    trendMagnitude rows = |avgSentiment (recent30 rows) - avgSentiment rows| := by
  have hr := recentSentiment_eq rows h
  unfold trendDirection trendMagnitude
  rw [hr]
  by_cases hc : avgSentiment (recent30 rows) > avgSentiment rows
  · rw [if_pos hc]
    exact ⟨⟨fun _ => hc, fun _ => rfl⟩,
      ⟨fun hf => absurd hf (by decide), fun hn => absurd hc hn⟩, rfl⟩
  · rw [if_neg hc]
    exact ⟨⟨fun hf => absurd hf.symm (by decide), fun hlt => absurd hlt hc⟩,
      ⟨fun _ => hc, fun _ => rfl⟩, rfl⟩

/-- C6, witness: the trend-magnitude conjunct applied to a concrete
one-record dataset. -/
theorem claim6_witness :
    trendMagnitude [(⟨0, 1, none⟩ : CleanedRecord)] =
      |avgSentiment (recent30 [(⟨0, 1, none⟩ : CleanedRecord)]) -
        avgSentiment [(⟨0, 1, none⟩ : CleanedRecord)]| :=
  (claim6_trend [⟨0, 1, none⟩] (List.cons_ne_nil _ _)).2.2

/-- C7: the per-category totals of the EDA pass and of the summary pass
agree category by category on every dataset: both are the same fold of
the shared extraction and categorization over the rows' theme strings. -/
theorem claim7_totals_agree (rows : List CleanedRecord) (c : ESGCategory) :
    edaCategoryTotals rows c = summaryCategoryTotals rows c := by
  unfold edaCategoryTotals summaryCategoryTotals
  rw [List.foldl_map]

/-- C8: the BI-export rolling averages use a minimum window of 1: after
sorting by date, the first row's 7-row and 30-row rolling averages equal
its own sentiment score, every row receives a value (the column length
matches), and on the sequence [1, 2, 3] the 7-window rolling average is
[1, 1.5, 2]. -/
theorem claim8_rolling (rows : List CleanedRecord) (x : CleanedRecord)
    (t : List CleanedRecord) (hs : sortByDate rows = x :: t) :
    (rolling7Column rows).head? = some x.sentiment_score ∧
    (rolling30Column rows).head? = some x.sentiment_score ∧
    (rolling7Column rows).length = rows.length ∧
    (rolling30Column rows).length = rows.length ∧
    rollingMean 7 [1, 2, 3] = [1, 3 / 2, 2] := by
  have hl : (x :: t).length = rows.length := by
    rw [← hs, length_sortByDate]
  unfold rolling7Column rolling30Column
  rw [hs]
  simp only [List.map_cons]
  refine ⟨rollingMean_head 7 (by omega) _ _, rollingMean_head 30 (by omega) _ _,
    ?_, ?_, ?_⟩
  · rw [rollingMean_length, ← List.map_cons, List.length_map, hl]
  · rw [rollingMean_length, ← List.map_cons, List.length_map, hl]
  · norm_num [rollingMean, mean, List.range, List.range.loop]

/-- C8, witness: the rolling-average conjuncts applied to a concrete
one-record dataset, whose sorted form is itself. -/
theorem claim8_witness :
    (rolling7Column [(⟨0, 5, none⟩ : CleanedRecord)]).head? = some 5 :=
  (claim8_rolling [⟨0, 5, none⟩] ⟨0, 5, none⟩ [] rfl).1

/-- C9: for every non-empty cleaned dataset the trailing-30-day subset is
non-empty (the record at the maximum date is in it), so the fallback that
substitutes the all-time mean is not taken: the recent sentiment is the
mean over the trailing-30-day subset. -/
theorem claim9_recent_nonempty (rows : List CleanedRecord) (h : rows ≠ []) :
    recent30 rows ≠ [] ∧
    recentSentiment rows = avgSentiment (recent30 rows) :=
  ⟨recent30_ne_nil rows h, recentSentiment_eq rows h⟩

/-- C9, witness: the non-emptiness conjuncts applied to a concrete
one-record dataset. -/
theorem claim9_witness :
    recent30 [(⟨0, 1, none⟩ : CleanedRecord)] ≠ [] :=
  (claim9_recent_nonempty [⟨0, 1, none⟩] (List.cons_ne_nil _ _)).1

/-- C10: with the date column present and non-empty, the cleaner parses
per row exactly when the column dtype is int64 and the first value prints
as 8 characters: then every row is parsed as YYYYMMDD with unparseable
rows becoming Missing; otherwise every row receives the synthetic date
2024-07-01 plus its input position in days.  Concretely, 20240701 parses
to the epoch day and 20241301 (month 13) is Missing. -/
theorem claim10_date_branch (isInt64 : Bool) (v : ℤ) (rest : List ℤ) :
    (isInt64 = true → pyIntStrLen8 v = true →
      parseDateColumn true isInt64 (v :: rest) = (v :: rest).map parseYYYYMMDD) ∧
    (isInt64 = false ∨ pyIntStrLen8 v = false →
      parseDateColumn true isInt64 (v :: rest) =
        (List.range (v :: rest).length).map (fun i => some (epochDay + (i : ℤ)))) ∧
    parseYYYYMMDD 20240701 = some epochDay ∧
    parseYYYYMMDD 20241301 = none := by
  refine ⟨?_, ?_, by decide, by decide⟩
  · intro hi hl
    subst hi
    unfold parseDateColumn
    simp only [List.head?_cons]
    rw [if_pos (by simp [hl])]
  · intro hd
    unfold parseDateColumn
    simp only [List.head?_cons]
    rcases hd with hd | hd
    · subst hd
      rw [if_neg (by simp)]
    · rw [if_neg (by simp [hd])]

/-- C10, witness: both branches at concrete inputs: an int64 column whose
first value is 8 digits parses per row; a non-int64 column receives
synthetic sequential dates. -/
theorem claim10_witness :
    parseDateColumn true true [20240701, 20241301] =
      [20240701, 20241301].map parseYYYYMMDD ∧
    parseDateColumn true false [20240701] =
      (List.range 1).map (fun i => some (epochDay + (i : ℤ))) :=
  ⟨(claim10_date_branch true 20240701 [20241301]).1 rfl (by decide),
   (claim10_date_branch false 20240701 []).2.1 (Or.inl rfl)⟩

end TeslaESG
